/-
Verification development for the age-verification bot (cogs/verification.py).

The file shallowly embeds the verification core of the repository:
the rate limiter, the security screen, the pending-session table, the
reaction/confirm handler, the timeout task, the role propagator, and the
audit logging, as executable Lean definitions over a explicit state type.
Machine time is modelled as natural-number seconds; the SHA-256 hash used
by the source for tokens and pseudo-identifiers is implemented concretely.
-/
import Mathlib

namespace VerificationBot

/-! ## SHA-256 (used by `generate_verification_token` and the `ip_hash`
pseudo-identifier, source lines 30-35 and 89; the source calls Python's
`hashlib.sha256(...).hexdigest()`).  Implemented over `Nat` with explicit
reduction modulo 2^32. Byte encoding of our (always ASCII) strings is
`Char.toNat`, matching `str.encode()` on ASCII input. -/

/-- Reduce modulo 2^32. -/
def w32 (n : Nat) : Nat := n % 4294967296

/-- Rotate a 32-bit word right by `k`. -/
def rotr32 (k n : Nat) : Nat := n / 2 ^ k + n % 2 ^ k * 2 ^ (32 - k)

/-- Bitwise complement of a 32-bit word. -/
def not32 (n : Nat) : Nat := Nat.xor n 4294967295

def chf (e f g : Nat) : Nat := Nat.xor (Nat.land e f) (Nat.land (not32 e) g)

def majf (a b c : Nat) : Nat :=
  Nat.xor (Nat.xor (Nat.land a b) (Nat.land a c)) (Nat.land b c)

def bigSigma0 (x : Nat) : Nat :=
  Nat.xor (Nat.xor (rotr32 2 x) (rotr32 13 x)) (rotr32 22 x)

def bigSigma1 (x : Nat) : Nat :=
  Nat.xor (Nat.xor (rotr32 6 x) (rotr32 11 x)) (rotr32 25 x)

def smallSigma0 (x : Nat) : Nat :=
  Nat.xor (Nat.xor (rotr32 7 x) (rotr32 18 x)) (x / 2 ^ 3)

def smallSigma1 (x : Nat) : Nat :=
  Nat.xor (Nat.xor (rotr32 17 x) (rotr32 19 x)) (x / 2 ^ 10)

/-- The 64 SHA-256 round constants (FIPS 180-4, written in decimal). -/
def shaK : List Nat :=
  [1116352408, 1899447441, 3049323471, 3921009573, 961987163,
   1508970993, 2453635748, 2870763221, 3624381080, 310598401,
   607225278, 1426881987, 1925078388, 2162078206, 2614888103,
   3248222580, 3835390401, 4022224774, 264347078, 604807628,
   770255983, 1249150122, 1555081692, 1996064986, 2554220882,
   2821834349, 2952996808, 3210313671, 3336571891, 3584528711,
   113926993, 338241895, 666307205, 773529912, 1294757372,
   1396182291, 1695183700, 1986661051, 2177026350, 2456956037,
   2730485921, 2820302411, 3259730800, 3345764771, 3516065817,
   3600352804, 4094571909, 275423344, 430227734, 506948616,
   659060556, 883997877, 958139571, 1322822218, 1537002063,
   1747873779, 1955562222, 2024104815, 2227730452, 2361852424,
   2428436474, 2756734187, 3204031479, 3329325298]

/-- The eight 32-bit working registers of SHA-256. -/
structure H8 where
  a : Nat
  b : Nat
  c : Nat
  d : Nat
  e : Nat
  f : Nat
  g : Nat
  h : Nat
deriving DecidableEq, Repr

/-- SHA-256 initial hash value (FIPS 180-4, written in decimal). -/
def initH : H8 :=
  ⟨1779033703, 3144134277, 1013904242, 2773480762,
   1359893119, 2600822924, 528734635, 1541459225⟩

/-- Extend a 16-word block to the full message schedule by `k` more words. -/
def extendSchedule : Nat → List Nat → List Nat
  | 0, ws => ws
  | k + 1, ws =>
    let n := ws.length
    let w := w32 (smallSigma1 (ws.getD (n - 2) 0) + ws.getD (n - 7) 0 +
      smallSigma0 (ws.getD (n - 15) 0) + ws.getD (n - 16) 0)
    extendSchedule k (ws ++ [w])

/-- One SHA-256 compression round; `kw` is the pair (round constant, word). -/
def shaRound (st : H8) (kw : Nat × Nat) : H8 :=
  let t1 := w32 (st.h + bigSigma1 st.e + chf st.e st.f st.g + kw.1 + kw.2)
  let t2 := w32 (bigSigma0 st.a + majf st.a st.b st.c)
  ⟨w32 (t1 + t2), st.a, st.b, st.c, w32 (st.d + t1), st.e, st.f, st.g⟩

/-- Process one 512-bit block (given as 16 words). -/
def processBlock (hv : H8) (block : List Nat) : H8 :=
  let ws := extendSchedule 48 block
  let st := (shaK.zip ws).foldl shaRound hv
  ⟨w32 (hv.a + st.a), w32 (hv.b + st.b), w32 (hv.c + st.c), w32 (hv.d + st.d),
   w32 (hv.e + st.e), w32 (hv.f + st.f), w32 (hv.g + st.g), w32 (hv.h + st.h)⟩

/-- Big-endian byte expansion of `n` into `k` bytes. -/
def bytesBE : Nat → Nat → List Nat
  | 0, _ => []
  | k + 1, n => bytesBE k (n / 256) ++ [n % 256]

/-- SHA-256 padding: append 0x80, zero bytes, and the 64-bit bit length. -/
def padMessage (msg : List Nat) : List Nat :=
  let L := msg.length
  let zeros := (64 - (L + 9) % 64) % 64
  msg ++ [128] ++ List.replicate zeros 0 ++ bytesBE 8 (L * 8)

/-- Group bytes four at a time into big-endian 32-bit words. -/
def toWords : List Nat → List Nat
  | b1 :: b2 :: b3 :: b4 :: rest =>
    (((b1 * 256 + b2) * 256 + b3) * 256 + b4) :: toWords rest
  | _ => []

/-- Split a word list into blocks of 16 words; `k` is the number of blocks. -/
def splitBlocks : Nat → List Nat → List (List Nat)
  | 0, _ => []
  | k + 1, ws => ws.take 16 :: splitBlocks k (ws.drop 16)

/-- SHA-256 of a byte list, producing the eight-word digest. -/
def sha256words (msg : List Nat) : H8 :=
  let ws := toWords (padMessage msg)
  (splitBlocks (ws.length / 16) ws).foldl processBlock initH

/-- Lowercase hexadecimal digit for a value below 16. -/
def hexDigit (n : Nat) : Char := "0123456789abcdef".data.getD n (Char.ofNat 48)

/-- Eight lowercase hexadecimal digits of a 32-bit word, most significant first. -/
def wordHex (n : Nat) : List Char :=
  [hexDigit (n / 2 ^ 28 % 16), hexDigit (n / 2 ^ 24 % 16),
   hexDigit (n / 2 ^ 20 % 16), hexDigit (n / 2 ^ 16 % 16),
   hexDigit (n / 2 ^ 12 % 16), hexDigit (n / 2 ^ 8 % 16),
   hexDigit (n / 2 ^ 4 % 16), hexDigit (n % 16)]

/-- `hashlib.sha256(s.encode()).hexdigest()` for ASCII strings. -/
def sha256hex (msg : String) : String :=
  let st := sha256words (msg.data.map Char.toNat)
  ⟨wordHex st.a ++ wordHex st.b ++ wordHex st.c ++ wordHex st.d ++
   wordHex st.e ++ wordHex st.f ++ wordHex st.g ++ wordHex st.h⟩

/-! ## Data model

State of `VerificationCog` (source lines 16-28), together with the two
durable tables the cog drives through `self.db`.  The `Database` class is
imported from a module that is not part of the repository sources; its two
tables used here are
Modelled from the spec: the Audit Store is an append-only list of
verification attempts, and the User Verification Record is a per-user
boolean flag that is created on first successful verification, never
deleted, and idempotent to re-write. -/

/-- The user snapshot as the handlers see it: id, `str(user)`, account
creation time (seconds), avatar presence, and the bare user name. -/
structure UserInfo where
  uid : Nat
  username : String
  created_at : Nat
  avatar : Bool
  name : String
deriving DecidableEq, Repr

/-- One entry of `self.pending_verifications[user_id]` (source lines 180-185). -/
structure Session where
  token : String
  timestamp : Nat
  guild_id : Nat
  attempts : Nat
deriving DecidableEq, Repr

/-- One audit record as written by `log_verification_attempt`
(source lines 80-92); the ISO timestamp string is modelled as the numeric
time of the write. -/
structure Attempt where
  user_id : Nat
  username : String
  success : Bool
  reason : String
  timestamp : Nat
  ip_hash : String
deriving DecidableEq, Repr

/-- Cog plus database state.  `pending`, `rate_limits` and
`verification_attempts` are the cog's in-memory dictionaries; `timers` is
the set of live `setup_verification_timeout` tasks (user object and wake
time); `attempts_log` and `verified` are the database tables (see above). -/
structure BotState where
  pending : Nat → Option Session
  rate_limits : Nat → List Nat
  verification_attempts : Nat → Nat
  timers : List (UserInfo × Nat)
  attempts_log : List Attempt
  verified : Nat → Bool

/-- Point update of a map. -/
def updFn {α : Type} (f : Nat → α) (k : Nat) (v : α) : Nat → α :=
  fun u => if u = k then v else f u

/-- Empty cog and database state. -/
def initState : BotState :=
  { pending := fun _ => none
    rate_limits := fun _ => []
    verification_attempts := fun _ => 0
    timers := []
    attempts_log := []
    verified := fun _ => false }

/-! ## Configuration constants (source lines 25-28) -/

def max_attempts_per_hour : Nat := 3
def verification_timeout : Nat := 300
def cooldown_period : Nat := 3600
def min_account_age_days : Nat := 7

/-! ## Pure helpers of the cog -/

/-- `generate_verification_token` (source lines 30-35): SHA-256 of
`"{user_id}:{timestamp}:{random_string}"`, first 16 hex characters.  The
random 16-character string is an input (external entropy). -/
def generate_verification_token (user_id now : Nat) (rand : String) : String :=
  (sha256hex (toString user_id ++ ":" ++ toString now ++ ":" ++ rand)).take 16

/-- The pseudo-identifier written into every audit record (source line 89):
SHA-256 of the decimal user id, first 16 hex characters. -/
def ipHash (user_id : Nat) : String :=
  (sha256hex (toString user_id)).take 16

/-- Contiguous-substring test on character lists (Python's `in` on strings):
`patAt` checks for a match at the head, `strContains` at any position. -/
def patAt : List Char → List Char → Bool
  | [], _ => true
  | _ :: _, [] => false
  | p :: ps, c :: cs => p == c && patAt ps cs

def strContainsAux (pat : List Char) : List Char → Bool
  | [] => patAt pat []
  | c :: cs => patAt pat (c :: cs) || strContainsAux pat cs

def strContains (hay pat : String) : Bool := strContainsAux pat.data hay.data

/-- Lowercase a string (Python `str.lower` on ASCII). -/
def lowerStr (s : String) : String := ⟨s.data.map Char.toLower⟩

/-- `is_rate_limited` (source lines 37-49): prune the user's recorded
timestamps to those with `current_time - attempt_time < cooldown_period`,
store the pruned list back, and report whether at least
`max_attempts_per_hour` remain. -/
def is_rate_limited (now user_id : Nat) (s : BotState) : Bool × BotState :=
  let pruned := (s.rate_limits user_id).filter
    (fun t => decide (now - t < cooldown_period))
  (decide (max_attempts_per_hour ≤ pruned.length),
   { s with rate_limits := updFn s.rate_limits user_id pruned })

/-- `add_rate_limit_attempt` (source lines 51-55): append the current time
to the user's list. -/
def add_rate_limit_attempt (now user_id : Nat) (s : BotState) : BotState :=
  { s with rate_limits :=
      updFn s.rate_limits user_id (s.rate_limits user_id ++ [now]) }

/-- `check_account_security` (source lines 57-78): accumulate the account
age issue, the missing avatar issue, and the suspicious-name issue, in that
order.  `account_age.days` is `(now - created_at) / 86400`. -/
def check_account_security (now : Nat) (u : UserInfo) : List String :=
  let days := (now - u.created_at) / 86400
  let ageIssues := if days < min_account_age_days then
    ["Account too new (created " ++ toString days ++ " days ago)"] else []
  let avatarIssues := if u.avatar then [] else ["No profile picture set"]
  let nameIssues := if ["bot", "1234", "temp", "test", "fake"].any
      (fun p => strContains (lowerStr u.name) p) then
    ["Suspicious username pattern detected"] else []
  ageIssues ++ avatarIssues ++ nameIssues

/-- `log_verification_attempt` (source lines 80-92): append one audit
record, with `ip_hash` computed from the user id alone. -/
def log_verification_attempt (now : Nat) (u : UserInfo) (success : Bool)
    (reason : String) (s : BotState) : BotState :=
  { s with attempts_log := s.attempts_log ++
      [{ user_id := u.uid, username := u.username, success := success,
         reason := reason, timestamp := now, ip_hash := ipHash u.uid }] }

/-! ## Session lifecycle handlers -/

/-- `timeout_verification` (source lines 224-228): if the user still has a
pending session, delete it and log a "Verification timeout" attempt. -/
def timeout_verification (now : Nat) (u : UserInfo) (s : BotState) : BotState :=
  match s.pending u.uid with
  | some _ => log_verification_attempt now u false "Verification timeout"
      { s with pending := updFn s.pending u.uid none }
  | none => s

/-- The body of `setup_verification_timeout` after its sleep, together with
the remainder of `verify_user` that resumes after the inline
`await self.setup_verification_timeout(...)` (source lines 197, 218-222 and
211-212): check the pending table, time the session out if still present,
then `add_rate_limit_attempt`.  Fires only if the timer is actually
scheduled. -/
def timer_fire (now : Nat) (u : UserInfo) (fire_at : Nat) (s : BotState) :
    BotState :=
  if s.timers.contains (u, fire_at) then
    let s1 := { s with timers := s.timers.erase (u, fire_at) }
    let s2 := if (s1.pending u.uid).isSome then timeout_verification now u s1
      else s1
    add_rate_limit_attempt now u.uid s2
  else s

/-- `verify_user` (source lines 96-216): rate-limit check (logged
rejection), already-verified check (unlogged rejection), security screen
(logged rejection), then token generation and session creation.  On the DM
path a timeout task is started (and the rate-limit record happens when that
task completes, since the source awaits it inline); on the DM-forbidden
fallback path the rate-limit record happens immediately and no timeout task
exists. -/
def verify_user (now : Nat) (user : UserInfo) (guild_id : Nat) (rand : String)
    (dm_ok : Bool) (s : BotState) : BotState :=
  let checked := is_rate_limited now user.uid s
  if checked.1 then
    log_verification_attempt now user false "Rate limited" checked.2
  else if checked.2.verified user.uid then
    checked.2
  else
    let issues := check_account_security now user
    if issues.isEmpty then
      let token := generate_verification_token user.uid now rand
      let sess : Session :=
        { token := token, timestamp := now, guild_id := guild_id,
          attempts := checked.2.verification_attempts user.uid + 1 }
      let s2 :=
        { checked.2 with pending := updFn checked.2.pending user.uid (some sess) }
      if dm_ok then
        { s2 with timers := s2.timers ++ [(user, now + verification_timeout)] }
      else
        add_rate_limit_attempt now user.uid s2
    else
      log_verification_attempt now user false
        ("Security issues: " ++ String.intercalate ", " issues) checked.2

/-- `complete_verification` (source lines 276-325), net effect: if the
session data is older than the timeout, run the timeout path; otherwise
write the Verification Record, log a success attempt, propagate roles
(external effects only), and finally delete the pending entry if still
present. -/
def complete_verification (now : Nat) (u : UserInfo) (vd : Session)
    (s : BotState) : BotState :=
  if verification_timeout < now - vd.timestamp then
    timeout_verification now u s
  else
    let s1 := { s with verified := updFn s.verified u.uid true }
    let s2 := log_verification_attempt now u true "Successfully verified" s1
    match s2.pending u.uid with
    | some _ => { s2 with pending := updFn s2.pending u.uid none }
    | none => s2

/-- `cancel_verification` (source lines 327-352): delete the pending entry
if present and log a cancellation attempt. -/
def cancel_verification (now : Nat) (u : UserInfo) (s : BotState) : BotState :=
  let s1 := match s.pending u.uid with
    | some _ => { s with pending := updFn s.pending u.uid none }
    | none => s
  log_verification_attempt now u false "User cancelled verification" s1

/-- `on_reaction_add` (source lines 245-274): ignore bots, ignore users with
no pending session, require the verification embed, then branch on the
emoji.  `embed_ok` is the outcome of the embed-title guard. -/
def on_reaction_add (now : Nat) (u : UserInfo) (is_bot : Bool)
    (embed_ok : Bool) (emoji : String) (s : BotState) : BotState :=
  if is_bot then s
  else match s.pending u.uid with
    | none => s
    | some vd =>
      if embed_ok then
        if emoji = "✅" then complete_verification now u vd s
        else if emoji = "❌" then cancel_verification now u s
        else s
      else s

/-- `force_verify` (source lines 514-534): write the Verification Record,
propagate roles (external effects only), and log a success attempt. -/
def force_verify (now : Nat) (member : UserInfo) (admin : String)
    (s : BotState) : BotState :=
  let s1 := { s with verified := updFn s.verified member.uid true }
  log_verification_attempt now member true ("Force verified by " ++ admin) s1

/-! ## Event semantics: each external trigger runs its handler to
completion (the source is a single asyncio event loop). -/

inductive Event where
  | start (now : Nat) (user : UserInfo) (guild_id : Nat) (rand : String)
      (dm_ok : Bool)
  | reaction (now : Nat) (user : UserInfo) (is_bot : Bool) (embed_ok : Bool)
      (emoji : String)
  | timerFire (now : Nat) (user : UserInfo) (fire_at : Nat)
  | forceVerify (now : Nat) (member : UserInfo) (admin : String)

def step (e : Event) (s : BotState) : BotState :=
  match e with
  | .start now user guild_id rand dm_ok => verify_user now user guild_id rand dm_ok s
  | .reaction now user is_bot embed_ok emoji =>
      on_reaction_add now user is_bot embed_ok emoji s
  | .timerFire now user fire_at => timer_fire now user fire_at s
  | .forceVerify now member admin => force_verify now member admin s

def runEvents (es : List Event) (s : BotState) : BotState :=
  es.foldl (fun st e => step e st) s

/-! ## Role propagation (`assign_verification_roles`, source lines 412-443)

The loop body for one guild, inside its own try/except: look up the
configured verification role and grant it when present, existing and not
already held; then look up the role named "Verified" and grant it under the
same conditions.  A raised exception anywhere in the body is caught by the
per-guild except clause, logged for that guild, and the loop continues.
External collaborator outcomes (member lookup, role lookup, whether a grant
raises) are inputs. -/

/-- Collaborator-determined facts about one guild. -/
structure GuildCfg where
  gid : Nat
  member_present : Bool
  verification_role_id : Option Nat
  role_exists : Bool
  member_has_role : Bool
  grant_raises : Bool
  named_role_exists : Bool
  member_has_named_role : Bool
  named_grant_raises : Bool
deriving DecidableEq, Repr

/-- Observable outcome of the loop body for one guild: which configured
role id was granted, whether the "Verified" role was granted, and whether
the body raised (and was caught and logged for that guild alone). -/
structure GuildReport where
  gid : Nat
  granted : Option Nat
  granted_named : Bool
  raised : Bool
deriving DecidableEq, Repr

/-- One iteration of the `assign_verification_roles` loop. -/
def assignOneGuild (g : GuildCfg) : GuildReport :=
  if g.member_present then
    let tryRole := match g.verification_role_id with
      | some rid => if g.role_exists && !g.member_has_role then some rid else none
      | none => none
    if tryRole.isSome && g.grant_raises then
      { gid := g.gid, granted := none, granted_named := false, raised := true }
    else if g.named_role_exists && !g.member_has_named_role then
      if g.named_grant_raises then
        { gid := g.gid, granted := tryRole, granted_named := false, raised := true }
      else
        { gid := g.gid, granted := tryRole, granted_named := true, raised := false }
    else
      { gid := g.gid, granted := tryRole, granted_named := false, raised := false }
  else
    { gid := g.gid, granted := none, granted_named := false, raised := false }

/-- `assign_verification_roles`: iterate over all guilds, collecting each
guild's observable outcome; an exception in one guild never stops the
loop. -/
def assign_verification_roles (guilds : List GuildCfg) : List GuildReport :=
  guilds.foldl (fun acc g => acc ++ [assignOneGuild g]) []

/-! ## Fine-grained confirm/expire interleaving (for the race analysis)

`complete_verification` is reached from `on_reaction_add` after the
pending-table lookup.  Its synchronous prefix — the guards, the timing
check, `db.verify_user` and the success audit write (source lines 253-256
and 280-286) — runs without yielding to the event loop; the coroutine then
suspends inside `add_user_to_target_server` / `assign_verification_roles`
(both await network calls), and only afterwards deletes the pending entry
(source lines 294-296).  The timeout task's state mutation (presence check,
delete, timeout audit write, source lines 221-228) is likewise a single
synchronous block.  The three blocks below are exactly these atomic
sections. -/

/-- Synchronous prefix of a confirm: pending lookup, timing check, then
either the timeout path, or Verification Record write plus success audit
record.  The second component tells whether the success branch was taken
(and the coroutine is now suspended before its cleanup). -/
def confirmPhase1 (now : Nat) (u : UserInfo) (s : BotState) : BotState × Bool :=
  match s.pending u.uid with
  | none => (s, false)
  | some vd =>
    if verification_timeout < now - vd.timestamp then
      (timeout_verification now u s, false)
    else
      let s1 := { s with verified := updFn s.verified u.uid true }
      (log_verification_attempt now u true "Successfully verified" s1, true)

/-- Resumption of the confirm coroutine after role propagation: delete the
pending entry if still present (source lines 294-296). -/
def confirmPhase2 (u : UserInfo) (s : BotState) : BotState :=
  match s.pending u.uid with
  | some _ => { s with pending := updFn s.pending u.uid none }
  | none => s

/-- The timeout task's synchronous block once its sleep ends: if a pending
session is present, delete it and write the timeout audit record. -/
def expireBlock (now : Nat) (u : UserInfo) (s : BotState) : BotState :=
  if (s.pending u.uid).isSome then timeout_verification now u s else s

/-! ## The claim's reading of the rate-limiter prune, for comparison

Stated from the claim's words alone: the check "first drops all recorded
attempt timestamps older than `window_seconds`" — i.e. keeps every
timestamp whose age is at most the window — "and then allows the attempt if
and only if the remaining count is strictly less than
`max_attempts_per_window`". -/
def is_rate_limited_claim (now user_id : Nat) (s : BotState) : Bool :=
  let kept := (s.rate_limits user_id).filter
    (fun t => decide (now - t ≤ cooldown_period))
  decide (max_attempts_per_hour ≤ kept.length)

/-! ## Shared concrete data for the theorems -/

/-- A user who passes every security check at times of a million seconds or
later: account created at time 0, avatar set, unsuspicious name. -/
def alice : UserInfo := ⟨7, "alice#1", 0, true, "alice"⟩

/-- The session of `pendingAt0`: created at time 0 in guild 1. -/
def tokSession : Session :=
  { token := "tok", timestamp := 0, guild_id := 1, attempts := 1 }

/-- A state holding one pending session for user 7, created at time 0. -/
def pendingAt0 : BotState :=
  { initState with pending := updFn initState.pending 7 (some tokSession) }

/-- Success/reason view of the audit log. -/
def logView (s : BotState) : List (Bool × String) :=
  s.attempts_log.map (fun a => (a.success, a.reason))

/-! ## C1 -/

/-- C1: claimed — when a confirm and an expire both run for a user with a
PENDING session, exactly one attempt record is written.  The code violates
this: the confirm coroutine writes the success record and only deletes the
session after suspending for role propagation, so a timeout task firing
during that suspension still sees the session and writes a second, timeout,
record.  This theorem exhibits the interleaving: confirm observes the
session at time 200 (inside the 300s window) and suspends; the timer fires
at time 300 and writes a timeout record; the confirm cleanup then finds
nothing to delete.  The log ends with BOTH a success and a timeout record
while the user is verified.  Under either serial order the intended single
record is produced, showing the loss is due to the interleaving alone. -/
theorem C1_confirm_expire_double_record :
    logView (confirmPhase2 alice
        (expireBlock 300 alice (confirmPhase1 200 alice pendingAt0).1)) =
      [(true, "Successfully verified"), (false, "Verification timeout")] ∧
    (confirmPhase2 alice
        (expireBlock 300 alice (confirmPhase1 200 alice pendingAt0).1)).verified 7
      = true ∧
    logView (expireBlock 300 alice
        (confirmPhase2 alice (confirmPhase1 200 alice pendingAt0).1)) =
      [(true, "Successfully verified")] ∧
    logView (confirmPhase1 310 alice (expireBlock 300 alice pendingAt0)).1 =
      [(false, "Verification timeout")] := by
  decide

/-! ## C2 -/

/-- C2: claimed — a second `start` while a session is PENDING is rejected
with "already pending".  The code has no such guard: here user 7 starts at
time 1000000 and again at 1000010; the second call is not rejected (no
attempt record is written), replaces the session with one created at
1000010, and issues a fresh token. -/
theorem C2_second_start_not_rejected :
    ((runEvents [Event.start 1000000 alice 1 "r1" false,
        Event.start 1000010 alice 1 "r2" false] initState).pending 7).map
        Session.timestamp = some 1000010 ∧
    ((runEvents [Event.start 1000000 alice 1 "r1" false] initState).pending
        7).map Session.timestamp = some 1000000 ∧
    ((runEvents [Event.start 1000000 alice 1 "r1" false,
        Event.start 1000010 alice 1 "r2" false] initState).pending 7).map
        Session.token ≠
      ((runEvents [Event.start 1000000 alice 1 "r1" false]
        initState).pending 7).map Session.token ∧
    (runEvents [Event.start 1000000 alice 1 "r1" false,
        Event.start 1000010 alice 1 "r2" false] initState).attempts_log = [] := by
  set_option maxRecDepth 100000 in decide

/-- C2 (amended): a second `start` for a user with a PENDING session is
not rejected: provided the rate limiter, verified-flag and security checks
pass, it replaces the session with a fresh one stamped `now` carrying a
newly generated token, and writes no attempt record. -/
theorem C2_amended_start_replaces_pending (now : Nat) (user : UserInfo)
    (gid : Nat) (rand : String) (dm_ok : Bool) (s : BotState) (sess0 : Session)
    (hp : s.pending user.uid = some sess0)
    (hrl : (is_rate_limited now user.uid s).1 = false)
    (hv : s.verified user.uid = false)
    (hsec : check_account_security now user = []) :
    (verify_user now user gid rand dm_ok s).pending user.uid =
      some { token := generate_verification_token user.uid now rand,
             timestamp := now, guild_id := gid,
             attempts := s.verification_attempts user.uid + 1 } ∧
    (verify_user now user gid rand dm_ok s).attempts_log = s.attempts_log := by
  have h2 : (is_rate_limited now user.uid s).2.verified user.uid = false := hv
  have h3 : (is_rate_limited now user.uid s).2.verification_attempts
      = s.verification_attempts := rfl
  have h4 : (is_rate_limited now user.uid s).2.attempts_log
      = s.attempts_log := rfl
  simp only [verify_user, hrl, h2, hsec, h3, Bool.false_eq_true, if_false,
    List.isEmpty_nil, if_true, ite_true, ite_false]
  cases dm_ok <;> simp [add_rate_limit_attempt, updFn, h4]

/-- Witness for the amended C2 at a concrete input: user 7 already has a
pending session and all checks pass, so the start replaces it. -/
theorem C2_amended_witness :
    pendingAt0.pending 7 = some tokSession ∧
    (is_rate_limited 1000000 7 pendingAt0).1 = false ∧
    pendingAt0.verified 7 = false ∧
    check_account_security 1000000 alice = [] ∧
    ((verify_user 1000000 alice 9 "r9" true pendingAt0).pending 7 =
      some { token := generate_verification_token 7 1000000 "r9",
             timestamp := 1000000, guild_id := 9, attempts := 1 } ∧
     (verify_user 1000000 alice 9 "r9" true pendingAt0).attempts_log =
       pendingAt0.attempts_log) :=
  ⟨rfl, by decide, rfl, by decide,
   C2_amended_start_replaces_pending 1000000 alice 9 "r9" true pendingAt0 _
     rfl (by decide) rfl (by decide)⟩

/-! ## C3 -/

/-- A state in which user 7 is already verified. -/
def verifiedOnly7 : BotState :=
  { initState with verified := updFn initState.verified 7 true }

/-- C3: claimed — every rejected start writes an attempt record with a
human-readable reason.  The already-verified rejection writes none: user 7
is verified, calls start, is rejected, and the audit log stays empty. -/
theorem C3_already_verified_not_logged :
    (runEvents [Event.start 1000000 alice 1 "r" true] verifiedOnly7).attempts_log
      = [] ∧
    Option.isSome
      ((runEvents [Event.start 1000000 alice 1 "r" true] verifiedOnly7).pending 7)
      = false := by
  decide

/-- C3 (amended): the rate-limited and security-failed rejections each
write one attempt record carrying a human-readable reason, while the
already-verified rejection writes none (and no "already pending" rejection
exists in the code). -/
theorem C3_amended_rejection_logging (now : Nat) (user : UserInfo)
    (gid : Nat) (rand : String) (dm_ok : Bool) (s : BotState) :
    ((is_rate_limited now user.uid s).1 = true →
      (verify_user now user gid rand dm_ok s).attempts_log =
        s.attempts_log ++
          [{ user_id := user.uid, username := user.username, success := false,
             reason := "Rate limited", timestamp := now,
             ip_hash := ipHash user.uid }]) ∧
    ((is_rate_limited now user.uid s).1 = false →
      s.verified user.uid = false →
      check_account_security now user ≠ [] →
      (verify_user now user gid rand dm_ok s).attempts_log =
        s.attempts_log ++
          [{ user_id := user.uid, username := user.username, success := false,
             reason := "Security issues: " ++ String.intercalate ", "
               (check_account_security now user),
             timestamp := now, ip_hash := ipHash user.uid }]) ∧
    ((is_rate_limited now user.uid s).1 = false →
      s.verified user.uid = true →
      (verify_user now user gid rand dm_ok s).attempts_log = s.attempts_log) := by
  have h4 : (is_rate_limited now user.uid s).2.attempts_log
      = s.attempts_log := rfl
  have h5 : (is_rate_limited now user.uid s).2.verified = s.verified := rfl
  refine ⟨fun hrl => ?_, fun hrl hv hsec => ?_, fun hrl hv => ?_⟩
  · simp only [verify_user, hrl, if_true, log_verification_attempt, h4]
  · have hie : (check_account_security now user).isEmpty = false := by
      cases hc : check_account_security now user with
      | nil => exact absurd hc hsec
      | cons a l => rfl
    simp only [verify_user, hrl, h5, hv, hie, Bool.false_eq_true, if_false,
      log_verification_attempt, h4]
  · simp only [verify_user, hrl, h5, hv, Bool.false_eq_true, if_false,
      if_true, h4]

/-- Witness for the amended C3: user 9 has three recorded attempts inside
the window and is rejected with a logged "Rate limited" record; a verified
user is rejected with nothing logged. -/
theorem C3_amended_witness :
    (is_rate_limited 10 9 { initState with
        rate_limits := updFn initState.rate_limits 9 [1, 2, 3] }).1 = true ∧
    (verify_user 10 ⟨9, "bob#2", 0, true, "bob"⟩ 1 "r" true
        { initState with
          rate_limits := updFn initState.rate_limits 9 [1, 2, 3] }).attempts_log =
      ({ initState with
          rate_limits := updFn initState.rate_limits 9 [1, 2, 3] } :
            BotState).attempts_log ++
        [{ user_id := 9, username := "bob#2", success := false,
           reason := "Rate limited", timestamp := 10, ip_hash := ipHash 9 }] :=
  ⟨by decide,
   (C3_amended_rejection_logging 10 ⟨9, "bob#2", 0, true, "bob"⟩ 1 "r" true
     { initState with
       rate_limits := updFn initState.rate_limits 9 [1, 2, 3] }).1
     (by decide)⟩

/-! ## C4 -/

/-- State after a successful start at time 1000000 whose DM delivery fails
(the channel-fallback branch of `verify_user`). -/
def c4NoDm : BotState :=
  runEvents [Event.start 1000000 alice 1 "r" false] initState

/-- State after a successful start at time 1000000 on the DM path. -/
def c4Dm : BotState :=
  runEvents [Event.start 1000000 alice 1 "r" true] initState

/-- C4: claimed — every successful start schedules a 300s expiry timer, so
an unconfirmed PENDING session is force-expired with one timeout record.
On the DM-forbidden fallback branch the code creates the PENDING session
but never calls `setup_verification_timeout`, so no timer exists and a
timer event at time 1000300 changes nothing: the session is never expired
and no timeout record is ever produced, although the verification embed
(sent on both branches) promises a 5-minute limit.  On the DM branch the
claim's behaviour does hold: the timer is scheduled for 1000300 and firing
it produces exactly one timeout record, deletes the session, and leaves
zero Verification Records. -/
theorem C4_fallback_start_never_expires :
    c4NoDm.timers = [] ∧
    Option.isSome (c4NoDm.pending 7) = true ∧
    c4NoDm.attempts_log = [] ∧
    timer_fire 1000300 alice 1000300 c4NoDm = c4NoDm ∧
    c4Dm.timers = [(alice, 1000300)] ∧
    c4Dm.attempts_log = [] ∧
    logView (timer_fire 1000300 alice 1000300 c4Dm) =
      [(false, "Verification timeout")] ∧
    (timer_fire 1000300 alice 1000300 c4Dm).pending 7 = none ∧
    (timer_fire 1000300 alice 1000300 c4Dm).verified 7 = false ∧
    (timer_fire 1000300 alice 1000300 c4Dm).timers = [] := by
  refine ⟨?_, ?_, ?_, rfl, ?_, ?_, ?_, ?_, ?_, ?_⟩ <;>
    set_option maxRecDepth 100000 in decide

/-! ## C5 -/

/-- A state in which user 7 has three recorded attempts, all at time 0. -/
def c5State : BotState :=
  { initState with rate_limits := updFn initState.rate_limits 7 [0, 0, 0] }

/-- C5: claimed — the check drops exactly the timestamps older than the
window and allows iff fewer than the maximum remain.  At a check exactly
3600s after three recorded attempts the two prune rules disagree: the
attempts are 3600s old, hence not older than the window, so the claimed
rule keeps all three and rejects, but the code keeps only ages strictly
below 3600s, drops all three, and allows the attempt. -/
theorem C5_window_boundary_disagrees :
    (is_rate_limited 3600 7 c5State).1 = false ∧
    is_rate_limited_claim 3600 7 c5State = true ∧
    ((is_rate_limited 3600 7 c5State).2.rate_limits 7 = [] ∧
     (c5State.rate_limits 7).filter
       (fun t => decide (3600 - t ≤ cooldown_period)) = [0, 0, 0]) := by
  decide

/-- One sequential start's interaction with the rate limiter: the check of
source line 100 followed, when allowed, by the record of source line 212. -/
def checkThenRecord (now uid : Nat) (s : BotState) : Bool × BotState :=
  let c := is_rate_limited now uid s
  if c.1 then c else (false, add_rate_limit_attempt now uid c.2)

/-- Run `checkThenRecord` at each time in turn, collecting the limited
flags. -/
def rlRun (uid : Nat) (ts : List Nat) (s : BotState) : List Bool × BotState :=
  match ts with
  | [] => ([], s)
  | t :: rest =>
    let r := checkThenRecord t uid s
    let rr := rlRun uid rest r.2
    (r.1 :: rr.1, rr.2)

set_option maxHeartbeats 2000000 in
/-- C5 (amended): the check keeps exactly the timestamps aged strictly less
than `window_seconds` and allows iff fewer than `max_attempts_per_window`
remain; consequently, starting from an empty window, three sequential
starts within one window are allowed, a fourth within the same window is
rate limited, and a later start a full window after the third is allowed
again. -/
theorem C5_amended_rate_limiter (uid : Nat) (s : BotState)
    (t1 t2 t3 t4 t5 : Nat) (h0 : s.rate_limits uid = [])
    (h12 : t1 ≤ t2) (h23 : t2 ≤ t3) (h34 : t3 ≤ t4)
    (hw : t4 - t1 < 3600) (h5 : 3600 ≤ t5 - t3) :
    (∀ now : Nat, (is_rate_limited now uid s).1 = false ↔
      ((s.rate_limits uid).filter
        (fun t => decide (now - t < cooldown_period))).length <
        max_attempts_per_hour) ∧
    (rlRun uid [t1, t2, t3, t4, t5] s).1 =
      [false, false, false, true, false] := by
  constructor
  · intro now
    simp only [is_rate_limited, decide_eq_false_iff_not, Nat.not_le]
  · have d21 : (decide (t2 - t1 < 3600) : Bool) = true := by
      simp; omega
    have d31 : (decide (t3 - t1 < 3600) : Bool) = true := by simp; omega
    have d32 : (decide (t3 - t2 < 3600) : Bool) = true := by simp; omega
    have d41 : (decide (t4 - t1 < 3600) : Bool) = true := by simp; omega
    have d42 : (decide (t4 - t2 < 3600) : Bool) = true := by simp; omega
    have d43 : (decide (t4 - t3 < 3600) : Bool) = true := by simp; omega
    have e51 : (decide (t5 - t1 < 3600) : Bool) = false := by simp; omega
    have e52 : (decide (t5 - t2 < 3600) : Bool) = false := by simp; omega
    have e53 : (decide (t5 - t3 < 3600) : Bool) = false := by simp; omega
    simp [rlRun, checkThenRecord, is_rate_limited, add_rate_limit_attempt,
      updFn, h0, cooldown_period, max_attempts_per_hour, d21, d31, d32, d41,
      d42, d43, e51, e52, e53, List.filter]

/-- Witness for the amended C5 at concrete times 0, 1, 2, 3 and 3602. -/
theorem C5_amended_witness :
    initState.rate_limits 7 = [] ∧ (0 : Nat) ≤ 1 ∧ (1 : Nat) ≤ 2 ∧
    (2 : Nat) ≤ 3 ∧ 3 - 0 < 3600 ∧ 3600 ≤ 3602 - 2 ∧
    (rlRun 7 [0, 1, 2, 3, 3602] initState).1 =
      [false, false, false, true, false] :=
  ⟨rfl, by decide, by decide, by decide, by decide, by decide,
   (C5_amended_rate_limiter 7 initState 0 1 2 3 3602 rfl (by decide)
     (by decide) (by decide) (by decide) (by decide)).2⟩

/-! ## C6 -/

/-- C6: claimed — the security screen is a pure function of the snapshot:
the same snapshot always yields the same issue list.  The code computes the
account age from the current clock, so the same snapshot evaluated at two
different times yields different issue lists: alice's account (created at
time 0) is flagged as too new at time 0 but passes ten days later. -/
theorem C6_screen_depends_on_clock :
    check_account_security 0 alice ≠ check_account_security 864000 alice := by
  decide

/-- C6 (amended): the security screen is a pure, deterministic function of
the snapshot and the evaluation clock: two evaluations whose derived
account age in days, avatar presence and user name agree produce identical
issue lists (and the screen touches no state at all — it is a plain
function of its arguments). -/
theorem C6_amended_screen_deterministic (now1 now2 : Nat) (u1 u2 : UserInfo)
    (hd : (now1 - u1.created_at) / 86400 = (now2 - u2.created_at) / 86400)
    (ha : u1.avatar = u2.avatar) (hn : u1.name = u2.name) :
    check_account_security now1 u1 = check_account_security now2 u2 := by
  simp only [check_account_security, hd, ha, hn]

/-- Witness for the amended C6: two snapshots with equal derived features,
evaluated at different clocks, yield the same issues. -/
theorem C6_amended_witness :
    (864000 - alice.created_at) / 86400 = (864100 - 100) / 86400 ∧
    alice.avatar = true ∧ alice.name = "alice" ∧
    check_account_security 864000 alice =
      check_account_security 864100 ⟨8, "a2#1", 100, true, "alice"⟩ :=
  ⟨by decide, rfl, rfl,
   C6_amended_screen_deterministic 864000 864100 alice
     ⟨8, "a2#1", 100, true, "alice"⟩ (by decide) rfl rfl⟩

/-! ## C7 -/

/-- The verified flag is untouched by the audit write. -/
theorem log_preserves_verified (now : Nat) (u : UserInfo) (b : Bool)
    (r : String) (s : BotState) :
    (log_verification_attempt now u b r s).verified = s.verified := rfl

/-- The verified flag is untouched by the rate-limit record. -/
theorem addrl_preserves_verified (now uid : Nat) (s : BotState) :
    (add_rate_limit_attempt now uid s).verified = s.verified := rfl

/-- The verified flag is untouched by the timeout path. -/
theorem timeout_preserves_verified (now : Nat) (u : UserInfo) (s : BotState) :
    (timeout_verification now u s).verified = s.verified := by
  unfold timeout_verification
  split <;> rfl

/-- The verified flag is untouched by a timer firing. -/
theorem timer_preserves_verified (now : Nat) (u : UserInfo) (fire_at : Nat)
    (s : BotState) : (timer_fire now u fire_at s).verified = s.verified := by
  unfold timer_fire
  split
  · rw [addrl_preserves_verified]
    split
    · rw [timeout_preserves_verified]
    · rfl
  · rfl

/-- The verified flag is untouched by `verify_user`. -/
theorem verify_user_preserves_verified (now : Nat) (user : UserInfo)
    (gid : Nat) (rand : String) (dm_ok : Bool) (s : BotState) :
    (verify_user now user gid rand dm_ok s).verified = s.verified := by
  simp only [verify_user]
  split
  · rfl
  · split
    · rfl
    · split
      · split <;> rfl
      · rfl

/-- A true verified flag survives `complete_verification`. -/
theorem complete_keeps_verified (now : Nat) (u : UserInfo) (vd : Session)
    (s : BotState) (w : Nat) (h : s.verified w = true) :
    (complete_verification now u vd s).verified w = true := by
  simp only [complete_verification]
  split
  · rw [timeout_preserves_verified]; exact h
  · split <;> simp [log_verification_attempt, updFn, h]

/-- The verified flag is untouched by a cancellation. -/
theorem cancel_preserves_verified (now : Nat) (u : UserInfo) (s : BotState) :
    (cancel_verification now u s).verified = s.verified := by
  unfold cancel_verification
  split <;> rfl

/-- A true verified flag survives any reaction event. -/
theorem reaction_keeps_verified (now : Nat) (u : UserInfo) (b e : Bool)
    (emoji : String) (s : BotState) (w : Nat) (h : s.verified w = true) :
    (on_reaction_add now u b e emoji s).verified w = true := by
  unfold on_reaction_add
  split
  · exact h
  · split
    · exact h
    · split
      · split
        · exact complete_keeps_verified _ _ _ _ _ h
        · split
          · rw [cancel_preserves_verified]; exact h
          · exact h
      · exact h

/-- A true verified flag survives `force_verify`. -/
theorem force_keeps_verified (now : Nat) (m : UserInfo) (a : String)
    (s : BotState) (w : Nat) (h : s.verified w = true) :
    (force_verify now m a s).verified w = true := by
  simp only [force_verify, log_preserves_verified, updFn]
  split <;> simp [h]

/-- A true verified flag survives any single event. -/
theorem step_keeps_verified (e : Event) (s : BotState) (w : Nat)
    (h : s.verified w = true) : (step e s).verified w = true := by
  cases e with
  | start now user gid rand dm_ok =>
    rw [step, verify_user_preserves_verified]; exact h
  | reaction now user b eo emoji => exact reaction_keeps_verified _ _ _ _ _ _ _ h
  | timerFire now user fire_at => rw [step, timer_preserves_verified]; exact h
  | forceVerify now m a => exact force_keeps_verified _ _ _ _ _ h

/-- C7: for every user, `is_verified` is monotonic: once the Verification
Record flag is true, it remains true after any further sequence of events —
no handler in the code clears it. -/
theorem C7_is_verified_monotonic (es : List Event) (s : BotState) (w : Nat)
    (h : s.verified w = true) : (runEvents es s).verified w = true := by
  induction es generalizing s with
  | nil => exact h
  | cons e rest ih => exact ih (step e s) (step_keeps_verified e s w h)

/-- Witness for C7: user 7 is verified, and stays verified across a start,
a timer firing and a cancellation reaction. -/
theorem C7_witness :
    verifiedOnly7.verified 7 = true ∧
    (runEvents [Event.start 5000000 alice 1 "r" true,
        Event.timerFire 5000300 alice 5000300,
        Event.reaction 5000400 alice false true "❌"]
      verifiedOnly7).verified 7 = true :=
  ⟨rfl, C7_is_verified_monotonic _ verifiedOnly7 7 rfl⟩

/-! ## C8 -/

/-- The fold of `assign_verification_roles` onto an accumulator is the
accumulator followed by the per-guild results. -/
theorem foldl_append_map (gs : List GuildCfg) (acc : List GuildReport) :
    gs.foldl (fun a g => a ++ [assignOneGuild g]) acc =
      acc ++ gs.map assignOneGuild := by
  induction gs generalizing acc with
  | nil => simp
  | cons g rest ih => simp [ih]

/-- Guild A: member present, configured role 11 grantable without error. -/
def guildA : GuildCfg := ⟨1, true, some 11, true, false, false, false, false, false⟩

/-- Guild B: like A with role 22, but the grant call raises. -/
def guildB : GuildCfg := ⟨2, true, some 22, true, false, true, false, false, false⟩

/-- Guild C: member present, configured role 33 grantable without error. -/
def guildC : GuildCfg := ⟨3, true, some 33, true, false, false, false, false, false⟩

/-- C8: an exception in one guild's grant attempt is caught and recorded
for that guild alone.  First conjunct: the loop's outcome is pointwise —
each guild's report is a function of that guild's own data only, so a raise
in one guild never stops or alters the others.  Second: with three
configured guilds where B's grant raises, the report marks A and C granted
without error and B raised.  Third: once `complete_verification` has
written the Verification Record (any confirm within the timeout), the flag
is true — role propagation has no access to it and it is never reversed. -/
theorem C8_propagation_isolates_failures :
    (∀ gs : List GuildCfg,
      assign_verification_roles gs = gs.map assignOneGuild) ∧
    assign_verification_roles [guildA, guildB, guildC] =
      [{ gid := 1, granted := some 11, granted_named := false, raised := false },
       { gid := 2, granted := none, granted_named := false, raised := true },
       { gid := 3, granted := some 33, granted_named := false, raised := false }] ∧
    (∀ (now : Nat) (u : UserInfo) (vd : Session) (s : BotState),
      now - vd.timestamp ≤ verification_timeout →
      (complete_verification now u vd s).verified u.uid = true) := by
  refine ⟨fun gs => foldl_append_map gs [], by decide, fun now u vd s h => ?_⟩
  simp only [complete_verification, if_neg (Nat.not_lt.mpr h)]
  split <;> simp [log_verification_attempt, updFn]

/-- Witness for C8's hypothesis-bearing part: a confirm at time 100 of a
session created at time 0 leaves the user verified. -/
theorem C8_witness :
    (100 : Nat) - tokSession.timestamp ≤ verification_timeout ∧
    (complete_verification 100 alice tokSession pendingAt0).verified 7 = true :=
  ⟨by decide,
   C8_propagation_isolates_failures.2.2 100 alice tokSession pendingAt0
     (by decide)⟩

/-! ## C9 -/

/-- C9: for a user with no PENDING session, a confirm or cancel reaction is
a complete no-op (the state is unchanged), and a timer firing alters
neither the Verification Record, nor the session table, nor the audit log
— no record is written, no session created, nothing surfaced. -/
theorem C9_stale_events_are_noops (s : BotState) (uid : Nat)
    (h : s.pending uid = none) :
    (∀ (now : Nat) (u : UserInfo) (b e : Bool) (emoji : String),
      u.uid = uid → on_reaction_add now u b e emoji s = s) ∧
    (∀ (now : Nat) (u : UserInfo) (fire_at : Nat), u.uid = uid →
      (timer_fire now u fire_at s).pending = s.pending ∧
      (timer_fire now u fire_at s).verified = s.verified ∧
      (timer_fire now u fire_at s).attempts_log = s.attempts_log) := by
  constructor
  · intro now u b e emoji hu
    subst hu
    cases b <;> simp [on_reaction_add, h]
  · intro now u fire_at hu
    subst hu
    simp only [timer_fire]
    split
    · simp [h, add_rate_limit_attempt]
    · exact ⟨rfl, rfl, rfl⟩

/-- Witness for C9: in the empty initial state user 7 has no session, so a
confirm reaction at time 50 leaves the state unchanged, and a timer firing
at time 300 writes no audit record. -/
theorem C9_witness :
    initState.pending 7 = none ∧
    on_reaction_add 50 alice false true "✅" initState = initState ∧
    (timer_fire 300 alice 300 initState).attempts_log =
      initState.attempts_log :=
  ⟨rfl,
   (C9_stale_events_are_noops initState 7 rfl).1 50 alice false true "✅" rfl,
   ((C9_stale_events_are_noops initState 7 rfl).2 300 alice 300 rfl).2.2⟩

/-! ## C10 -/

/-- Every record of the log carries the pseudo-identifier derived from its
own user id. -/
def auditOk (l : List Attempt) : Prop :=
  ∀ r ∈ l, r.ip_hash = ipHash r.user_id

set_option maxHeartbeats 2000000 in
theorem auditOk_log (now : Nat) (u : UserInfo) (b : Bool) (reason : String)
    (s : BotState) (h : auditOk s.attempts_log) :
    auditOk (log_verification_attempt now u b reason s).attempts_log := by
  intro r hr
  simp only [log_verification_attempt, List.mem_append, List.mem_singleton]
    at hr
  rcases hr with hr | hr
  · exact h r hr
  · subst hr
    dsimp only

theorem auditOk_timeout (now : Nat) (u : UserInfo) (s : BotState)
    (h : auditOk s.attempts_log) :
    auditOk (timeout_verification now u s).attempts_log := by
  unfold timeout_verification
  split
  · exact auditOk_log _ _ _ _ _ h
  · exact h

theorem auditOk_timer (now : Nat) (u : UserInfo) (fire_at : Nat)
    (s : BotState) (h : auditOk s.attempts_log) :
    auditOk (timer_fire now u fire_at s).attempts_log := by
  unfold timer_fire
  split
  · show auditOk (add_rate_limit_attempt _ _ _).attempts_log
    split
    · exact auditOk_timeout _ _ _ h
    · exact h
  · exact h

theorem auditOk_verify (now : Nat) (user : UserInfo) (gid : Nat)
    (rand : String) (dm_ok : Bool) (s : BotState) (h : auditOk s.attempts_log) :
    auditOk (verify_user now user gid rand dm_ok s).attempts_log := by
  simp only [verify_user]
  split
  · exact auditOk_log _ _ _ _ _ h
  · split
    · exact h
    · split
      · split
        · exact h
        · exact h
      · exact auditOk_log _ _ _ _ _ h

theorem auditOk_complete (now : Nat) (u : UserInfo) (vd : Session)
    (s : BotState) (h : auditOk s.attempts_log) :
    auditOk (complete_verification now u vd s).attempts_log := by
  simp only [complete_verification]
  split
  · exact auditOk_timeout _ _ _ h
  · split
    · exact auditOk_log _ _ _ _ _ h
    · exact auditOk_log _ _ _ _ _ h

theorem auditOk_cancel (now : Nat) (u : UserInfo) (s : BotState)
    (h : auditOk s.attempts_log) :
    auditOk (cancel_verification now u s).attempts_log := by
  unfold cancel_verification
  split
  · exact auditOk_log _ _ _ _ _ h
  · exact auditOk_log _ _ _ _ _ h

theorem auditOk_reaction (now : Nat) (u : UserInfo) (b e : Bool)
    (emoji : String) (s : BotState) (h : auditOk s.attempts_log) :
    auditOk (on_reaction_add now u b e emoji s).attempts_log := by
  unfold on_reaction_add
  split
  · exact h
  · split
    · exact h
    · split
      · split
        · exact auditOk_complete _ _ _ _ h
        · split
          · exact auditOk_cancel _ _ _ h
          · exact h
      · exact h

theorem auditOk_step (e : Event) (s : BotState) (h : auditOk s.attempts_log) :
    auditOk (step e s).attempts_log := by
  cases e with
  | start now user gid rand dm_ok => exact auditOk_verify _ _ _ _ _ _ h
  | reaction now user b eo emoji => exact auditOk_reaction _ _ _ _ _ _ h
  | timerFire now user fire_at => exact auditOk_timer _ _ _ _ h
  | forceVerify now m a => exact auditOk_log _ _ _ _ _ h

theorem auditOk_run (es : List Event) (s : BotState)
    (h : auditOk s.attempts_log) : auditOk (runEvents es s).attempts_log := by
  induction es generalizing s with
  | nil => exact h
  | cons e rest ih => exact ih (step e s) (auditOk_step e s h)

/-- C10: in every run of the system from the empty state, every logged
attempt's pseudo-identifier is `ipHash` of its own user id — the first 16
hex characters of the SHA-256 hash of the decimal user id, and nothing else
— so all attempts by one user carry the identical pseudo-identifier. -/
theorem C10_pseudo_identifier :
    (∀ (es : List Event) (r : Attempt),
      r ∈ (runEvents es initState).attempts_log →
      r.ip_hash = ipHash r.user_id) ∧
    (∀ (es : List Event) (r1 r2 : Attempt),
      r1 ∈ (runEvents es initState).attempts_log →
      r2 ∈ (runEvents es initState).attempts_log →
      r1.user_id = r2.user_id → r1.ip_hash = r2.ip_hash) := by
  have base : ∀ es : List Event, auditOk (runEvents es initState).attempts_log :=
    fun es => auditOk_run es initState (fun r hr => absurd hr (List.not_mem_nil r))
  refine ⟨fun es r hr => base es r hr, fun es r1 r2 h1 h2 hu => ?_⟩
  rw [base es r1 h1, base es r2 h2, hu]

/-- The audit record produced by a force-verification of user 7 at time 0. -/
def c10rec : Attempt :=
  { user_id := 7, username := "alice#1", success := true,
    reason := "Force verified by boss", timestamp := 0, ip_hash := ipHash 7 }

/-- Witness for C10: the concrete run consisting of one force-verify writes
exactly `c10rec`, and the theorem yields its pseudo-identifier equation. -/
theorem C10_witness :
    c10rec ∈ (runEvents [Event.forceVerify 0 alice "boss"]
      initState).attempts_log ∧
    c10rec.ip_hash = ipHash c10rec.user_id :=
  ⟨List.mem_singleton.mpr rfl,
   C10_pseudo_identifier.1 [Event.forceVerify 0 alice "boss"] c10rec
     (List.mem_singleton.mpr rfl)⟩

end VerificationBot
